import Mathlib

/-!
Shallow embedding of the prepper alert pipeline core
(`scripts/signals.py`, `scripts/state.py`, `scripts/alerting.py`,
and the decision/gating logic of `scripts/prepper_alerts.py`),
together with theorems settling the specification claims.

Python floats are modelled as rationals (ℚ), Python ints as ℕ/ℤ,
Python dicts as association lists over `String` keys, Python sets as
`Finset String`, and UTC timestamps as natural numbers (seconds).
Raised Python exceptions are modelled with `Except`.
-/

/-- The last `n` elements of a list, in order: model of the contents of a
`collections.deque` with `maxlen = n` after appends. -/
def lastN {α : Type} (n : Nat) (l : List α) : List α :=
  (l.reverse.take n).reverse

/-- Insert a value into a sorted list of naturals (helper for `sortList`). -/
def insertLe (a : Nat) : List Nat → List Nat
  | [] => [a]
  | b :: bs => if a ≤ b then a :: b :: bs else b :: insertLe a bs

/-- Insertion sort on naturals: model of Python `sorted` on a list of ints. -/
def sortList : List Nat → List Nat
  | [] => []
  | a :: as => insertLe a (sortList as)

/-- Python dict assignment `m[k] = v`: replace any existing binding of `k`. -/
def dictInsert {β : Type} (m : List (String × β)) (k : String) (v : β) :
    List (String × β) :=
  (k, v) :: m.filter (fun p => p.1 != k)

/-- Python `m.pop(k, None)`: remove any binding of `k`. -/
def dictPop {β : Type} (m : List (String × β)) (k : String) : List (String × β) :=
  m.filter (fun p => p.1 != k)

/-- Python `sep.join(parts)`. -/
def joinStr (sep : String) : List String → String
  | [] => ""
  | [x] => x
  | x :: xs => x ++ sep ++ joinStr sep xs

/-- Python `item.get(k) or ""` for a possibly missing string field. -/
def orEmpty : Option String → String
  | none => ""
  | some s => s

/-- Python `a or b` on strings (empty string is falsy). -/
def pyOr (a b : String) : String :=
  if a = "" then b else a

/-- Python truthiness test `not x` for an optional string credential:
true when the value is missing or empty. -/
def falsyOpt : Option String → Bool
  | none => true
  | some s => s == ""

/-- `pref needle hay`: `needle` is an initial segment of `hay`. -/
def pref : List Char → List Char → Bool
  | [], _ => true
  | _ :: _, [] => false
  | a :: as, b :: bs => a == b && pref as bs

/-- `containsSub hay needle`: `needle` occurs contiguously inside `hay`. -/
def containsSub : List Char → List Char → Bool
  | [], needle => needle.isEmpty
  | c :: t, needle => pref needle (c :: t) || containsSub t needle

/-- Python substring test `needle in hay` on strings. -/
def strContains (hay needle : String) : Bool :=
  containsSub hay.data needle.data

/-- Python `str.lower` over ASCII text. -/
def pyLower (s : String) : String :=
  ⟨s.data.map Char.toLower⟩

/-- Python `str.upper` over ASCII text. -/
def pyUpper (s : String) : String :=
  ⟨s.data.map Char.toUpper⟩

/-- ASCII whitespace recognizer for `pyStrip`. -/
def isSpaceChar (c : Char) : Bool :=
  c == ' ' || c == '\t' || c == '\n' || c == '\r'

/-- Python `str.strip`: drop leading and trailing whitespace. -/
def pyStrip (s : String) : String :=
  ⟨((s.data.dropWhile isSpaceChar).reverse.dropWhile isSpaceChar).reverse⟩

/-- Python slice `s[:n]`. -/
def pyTake (s : String) (n : Nat) : String :=
  ⟨s.data.take n⟩

/-! ## `scripts/signals.py` -/

/-- `signals.SurgeResult`. -/
structure SurgeResult where
  location_id : String
  count : Nat
  baseline : ℚ
  factor : ℚ
  distinct_domains : Nat
  tripped : Bool
deriving DecidableEq

/-- `signals.RollingBaseline`: a bounded deque of positive counts.
`samples` holds arrival order, most recent last (`deque(maxlen=window)`). -/
structure RollingBaseline where
  window : Nat
  samples : List Nat
deriving DecidableEq

/-- `RollingBaseline.__init__` default: `window = 12`, empty samples. -/
def RollingBaseline.init : RollingBaseline :=
  { window := 12, samples := [] }

/-- `RollingBaseline.median`: 0 for no samples; middle element of the
sorted samples for odd size; mean of the two middle elements for even size. -/
def RollingBaseline.median (b : RollingBaseline) : ℚ :=
  if b.samples = [] then 0
  else
    let data := sortList b.samples
    let mid := data.length / 2
    if data.length % 2 = 1 then ((data.getD mid 0 : Nat) : ℚ)
    else (((data.getD (mid - 1) 0 + data.getD mid 0 : Nat) : ℚ)) / 2

/-- `RollingBaseline.observe`: return the median of the samples held before
this observation, then append the new value only when it is strictly
positive (the deque evicts the oldest entry beyond `window` entries). -/
def RollingBaseline.observe (b : RollingBaseline) (value : Nat) :
    ℚ × RollingBaseline :=
  (b.median,
   if 0 < value then { b with samples := lastN b.window (b.samples ++ [value]) }
   else b)

/-- Run a sequence of `observe` calls, collecting the returned baselines. -/
def observe_all (b : RollingBaseline) : List Nat → List ℚ × RollingBaseline
  | [] => ([], b)
  | v :: vs =>
    let step := b.observe v
    let rest := observe_all step.2 vs
    (step.1 :: rest.1, rest.2)

/-- `signals.SignalsEngine`. `baselines` and `confirmations` are
`defaultdict`s, modelled as total functions (the default entry is
`RollingBaseline.init` resp. the empty set). -/
structure SignalsEngine where
  news_min_mentions : Nat
  news_spike_factor : ℚ
  require_domains : Nat
  hysteria_sources : Nat
  baselines : String → RollingBaseline
  confirmations : String → Finset String

/-- `SignalsEngine.__init__`. -/
def SignalsEngine.init (news_min_mentions : Nat) (news_spike_factor : ℚ)
    (require_domains : Nat) (hysteria_sources : Nat) : SignalsEngine :=
  { news_min_mentions := news_min_mentions
    news_spike_factor := news_spike_factor
    require_domains := require_domains
    hysteria_sources := hysteria_sources
    baselines := fun _ => RollingBaseline.init
    confirmations := fun _ => ∅ }

/-- `SignalsEngine.record_news`: observe the count against the rolling baseline
of the location, compute the surge factor, evaluate the trip condition,
and add `"news"` to the corroboration set of the location when tripped. -/
def SignalsEngine.record_news (e : SignalsEngine) (location_id : String)
    (count distinct_domains : Nat) : SurgeResult × SignalsEngine :=
  let ob := (e.baselines location_id).observe count
  let baseline := ob.1
  let e1 := { e with baselines := Function.update e.baselines location_id ob.2 }
  let factor : ℚ := if baseline = 0 then (count : ℚ) else (count : ℚ) / baseline
  let tripped : Bool :=
    decide (e.news_min_mentions ≤ count)
    && (decide (baseline = 0) || decide (baseline * e.news_spike_factor ≤ (count : ℚ)))
    && decide (e.require_domains ≤ distinct_domains)
  let conf2 := Function.update e1.confirmations location_id
    (insert "news" (e1.confirmations location_id))
  let e2 := if tripped then { e1 with confirmations := conf2 } else e1
  ({ location_id := location_id
     count := count
     baseline := baseline
     factor := factor
     distinct_domains := distinct_domains
     tripped := tripped }, e2)

/-- `SignalsEngine.record_confirmation`. -/
def SignalsEngine.record_confirmation (e : SignalsEngine) (location_id : String)
    (source_name : String) : SignalsEngine :=
  let conf := Function.update e.confirmations location_id
    (insert source_name (e.confirmations location_id))
  { e with confirmations := conf }

/-- `SignalsEngine.hysteria_active`. -/
def SignalsEngine.hysteria_active (e : SignalsEngine) (location_id : String) : Bool :=
  decide (e.hysteria_sources ≤ (e.confirmations location_id).card)

/-- `SignalsEngine.reset_run_state`: clear every corroboration set. -/
def SignalsEngine.reset_run_state (e : SignalsEngine) : SignalsEngine :=
  { e with confirmations := fun _ => ∅ }

/-! ## `scripts/state.py`

UTC instants are modelled as naturals (seconds); the ISO timestamp string
stored in `seen` is modelled by `toString` of the instant, and a cooldown
expiry is stored directly as the instant (the code stores its `strftime`
rendering and parses it back on every read). -/

/-- `state.AlertKey`. -/
structure AlertKey where
  location_id : String
  provider : String
  external_id : String
  category : String
deriving DecidableEq

/-- `AlertKey.composite`: the four fields joined with `/`. -/
def AlertKey.composite (k : AlertKey) : String :=
  joinStr "/" [k.location_id, k.provider, k.external_id, k.category]

/-- `state.StateStore` (the `path` field and disk I/O are dropped;
`save` serializes exactly the three maps below). -/
structure StateStore where
  seen : List (String × String)
  cooldowns : List (String × Nat)
  metadata : List (String × String)
deriving DecidableEq

/-- `StateStore.mark_seen`: record the current timestamp under the composite string of the key, as
composite string. -/
def StateStore.mark_seen (st : StateStore) (key : AlertKey) (now : Nat) :
    StateStore :=
  { st with seen := dictInsert st.seen key.composite (toString now) }

/-- `StateStore.is_seen`. -/
def StateStore.is_seen (st : StateStore) (key : AlertKey) : Bool :=
  (st.seen.lookup key.composite).isSome

/-- `StateStore.start_cooldown`: store expiry `now + minutes` (seconds). -/
def StateStore.start_cooldown (st : StateStore) (bucket : String)
    (minutes now : Nat) : StateStore :=
  { st with cooldowns := dictInsert st.cooldowns bucket (now + 60 * minutes) }

/-- `StateStore.in_cooldown`: false when no entry; when `now ≥ expiry`,
lazily evict the bucket and return false; otherwise true. Returns the
possibly updated store alongside the answer. -/
def StateStore.in_cooldown (st : StateStore) (bucket : String) (now : Nat) :
    Bool × StateStore :=
  match st.cooldowns.lookup bucket with
  | none => (false, st)
  | some expiry =>
    if expiry ≤ now then (false, { st with cooldowns := dictPop st.cooldowns bucket })
    else (true, st)

/-- `StateStore.get_metadata`. -/
def StateStore.get_metadata (st : StateStore) (key : String)
    (default : Option String) : Option String :=
  match st.metadata.lookup key with
  | some v => some v
  | none => default

/-- `StateStore.set_metadata`. -/
def StateStore.set_metadata (st : StateStore) (key value : String) : StateStore :=
  { st with metadata := dictInsert st.metadata key value }

/-! ## `scripts/alerting.py`

Network effects are modelled by outcome parameters: `PushNet` is the
outcome of `requests.post` + `raise_for_status` in `PushoverClient.send`
(a transport-level exception such as a timeout is NOT caught by the code,
only `requests.HTTPError` is), and `SmtpNet` is the outcome of the SMTP
session in `EmailClient.send` (the code catches nothing there). A raised
exception is an `Except.error`. -/

/-- `alerting.AlertPayload`. -/
structure AlertPayload where
  title : String
  body : String
  priority : Nat
  url : Option String
  location_id : String
  channels : List String := ["email", "pushover"]
deriving DecidableEq

/-- Outcome of the Pushover HTTP call: an uncaught transport exception, or
an HTTP response (`ok = false` makes `raise_for_status` raise `HTTPError`,
which the code catches). -/
inductive PushNet where
  | transportError
  | status (ok : Bool)
deriving DecidableEq

/-- Outcome of the SMTP session: success or a raised SMTP exception. -/
inductive SmtpNet where
  | ok
  | smtpError
deriving DecidableEq

/-- `PushoverClient.send`. -/
def PushoverClient.send (user_key app_token : Option String)
    (_payload : AlertPayload) (_emergency_retry _emergency_expire : Nat)
    (dry_run : Bool) (net : PushNet) : Except String Bool :=
  if falsyOpt user_key || falsyOpt app_token then .ok false
  else if dry_run then .ok true
  else
    match net with
    | .transportError => .error "requests transport failure"
    | .status ok => if ok then .ok true else .ok false

/-- `EmailClient.send`. -/
def EmailClient.send (username app_password to_addr : Option String)
    (_payload : AlertPayload) (dry_run : Bool) (net : SmtpNet) :
    Except String Bool :=
  if falsyOpt username || falsyOpt app_password || falsyOpt to_addr then .ok false
  else if dry_run then .ok true
  else
    match net with
    | .ok => .ok true
    | .smtpError => .error "smtp failure"

/-- Credentials and channel toggles held by `alerting.AlertDispatcher`. -/
structure DispatcherEnv where
  use_email : Bool
  use_pushover : Bool
  emergency_retry : Nat
  emergency_expire : Nat
  dry_run : Bool
  pushover_user : Option String
  pushover_token : Option String
  gmail_user : Option String
  gmail_app_password : Option String
  alert_email_to : Option String
deriving DecidableEq

/-- The Pushover half of `AlertDispatcher.dispatch` (executed first). -/
def pushover_step (env : DispatcherEnv) (payload : AlertPayload)
    (pnet : PushNet) : Except String Bool :=
  if env.use_pushover && payload.channels.contains "pushover" then
    PushoverClient.send env.pushover_user env.pushover_token payload
      env.emergency_retry env.emergency_expire env.dry_run pnet
  else .ok false

/-- The email half of `AlertDispatcher.dispatch` (executed second). -/
def email_step (env : DispatcherEnv) (payload : AlertPayload)
    (enet : SmtpNet) : Except String Bool :=
  if env.use_email && payload.channels.contains "email" then
    EmailClient.send env.gmail_user env.gmail_app_password env.alert_email_to
      payload env.dry_run enet
  else .ok false

/-- `AlertDispatcher.dispatch`: run the Pushover attempt, then the email
attempt, building the per-channel delivery map `(pushover, email)`; an
exception raised by either attempt propagates. -/
def AlertDispatcher.dispatch (env : DispatcherEnv) (payload : AlertPayload)
    (pnet : PushNet) (enet : SmtpNet) : Except String (Bool × Bool) :=
  match pushover_step env payload pnet with
  | .error e => .error e
  | .ok p =>
    match email_step env payload enet with
    | .error e => .error e
    | .ok m => .ok (p, m)

/-! ## `scripts/prepper_alerts.py` — decision engine and emit gate

`keywords_builder.normalize_ascii` is Unicode NFKD decomposition followed
by dropping non-ASCII code points (`unicodedata` library tables); the
decision functions below take it as an abstract function parameter `na`.
Python `str.lower`/`str.upper` after ASCII normalization are modelled by
`String.toLower`/`String.toUpper`. -/

/-- `prepper_alerts.AlertDecision`. -/
structure AlertDecision where
  provider : String
  location_id : String
  title : String
  body : String
  priority : Nat
  url : Option String := none
  category : String := "general"
  reason : String := ""
deriving DecidableEq

/-- Fields of an NWS CAP item dict read by the decision engine. -/
structure NwsItem where
  area_desc : Option String := none
  headline : Option String := none
  severity : Option String := none
  event : Option String := none
  urgency : Option String := none
  description : Option String := none
  uri : Option String := none
deriving DecidableEq

/-- Python `str.title` over ASCII: uppercase a letter that follows a
non-letter, lowercase a letter that follows a letter. -/
def titleChars : Bool → List Char → List Char
  | _, [] => []
  | prevAlpha, c :: cs =>
    (if c.isAlpha then (if prevAlpha then c.toLower else c.toUpper) else c)
      :: titleChars c.isAlpha cs

/-- Python `str.title` on a string. -/
def titleStr (s : String) : String :=
  ⟨titleChars false s.data⟩

/-- The text `_nws_impacts_location` searches: normalized, lowercased
`area_desc` and `headline` joined by a space. -/
def nws_search_text (na : String → String) (item : NwsItem) : String :=
  pyLower (na (orEmpty item.area_desc)) ++ " " ++ pyLower (na (orEmpty item.headline))

/-- The location tokens `_nws_impacts_location` matches against: the
normalized lowercase label, the lowercase location id, and the lowercased
derived geographic terms. -/
def nws_tokens (na : String → String) (label idv : String)
    (geo_terms : List String) : List String :=
  pyLower (na label) :: pyLower idv :: geo_terms.map pyLower

/-- `PrepperAlertsRunner._nws_impacts_location`: vacuously true when there
is no area/headline text, otherwise true iff some non-empty location token
occurs in the search text. -/
def nws_impacts_location (na : String → String) (label idv : String)
    (geo_terms : List String) (item : NwsItem) : Bool :=
  let search_text := nws_search_text na item
  if pyStrip search_text = "" then true
  else (nws_tokens na label idv geo_terms).any
    (fun token => token != "" && strContains search_text token)

/-- `PrepperAlertsRunner._decision_from_nws`. -/
def decision_from_nws (na : String → String) (label idv : String)
    (geo_terms : List String) (severe_thresholds : List String)
    (item : NwsItem) (hysteria_active : Bool) : Option AlertDecision :=
  if !nws_impacts_location na label idv geo_terms item then none
  else
    let severity := titleStr (orEmpty item.severity)
    let event := pyOr (orEmpty item.event) "NWS Alert"
    let is_watch := strContains (pyLower event) "watch"
      || pyLower severity == "minor" || pyLower severity == "moderate"
    if is_watch && !hysteria_active then none
    else if !severe_thresholds.contains severity && !hysteria_active then none
    else
      let urgency := pyLower (orEmpty item.urgency)
      let priority := if severe_thresholds.contains severity || urgency == "immediate"
        then 2 else 1
      let reason_bits := if hysteria_active
        then ["severity=" ++ severity, "hysteria"] else ["severity=" ++ severity]
      some { provider := "nws"
             location_id := idv
             title := "[" ++ pyUpper idv ++ "] " ++ event
             body := pyTake (na (pyOr (orEmpty item.description) (orEmpty item.headline))) 5000
             priority := priority
             url := item.uri
             category := "nws"
             reason := joinStr ";" reason_bits }

/-- Fields of a classifier-returned news item dict read by the post-filter. -/
structure NewsItem where
  title : Option String := none
  summary : Option String := none
  content : Option String := none
  link : Option String := none
  severity : Option Int := none
deriving DecidableEq

/-- Python `int(i.get("severity") or 1)`: a missing or zero severity
defaults to 1. -/
def newsItemSeverity (item : NewsItem) : Int :=
  match item.severity with
  | none => 1
  | some s => if s = 0 then 1 else s

/-- The lowercased text `_geo_specific_match` searches: title, summary and
content joined by spaces. -/
def news_item_text (item : NewsItem) : String :=
  pyLower (orEmpty item.title ++ " " ++ orEmpty item.summary ++ " "
    ++ orEmpty item.content)

/-- The specific local tokens of `_geo_specific_match`: lowercased city and
county (when present) plus the lowercased road names. -/
def geo_specific_tokens (city county : String) (roads : List String) :
    List String :=
  ([pyLower city, pyLower county].filter (fun t => t != ""))
    ++ (roads.map pyLower).filter (fun t => t != "")

/-- `PrepperAlertsRunner._geo_specific_match`: true when the location has
no specific tokens at all (fail-open); otherwise true iff some specific
token occurs in the item text — a text matching only the state name or
state code is rejected. -/
def geo_specific_match (city county state state_code : String)
    (roads : List String) (item : NewsItem) : Bool :=
  let text := news_item_text item
  let specific_tokens := geo_specific_tokens city county roads
  if specific_tokens = [] then true
  else if specific_tokens.any (fun tok => tok != "" && strContains text tok) then true
  else if pyLower state != "" && strContains text (pyLower state) then false
  else if pyLower state_code != "" && strContains text (pyLower state_code) then false
  else false

/-- The LLM post-filter in `PrepperAlertsRunner.run` (lines 239–245): an
item is accepted iff its severity meets `llm_confirm_min_severity` and
`_geo_specific_match` passes. -/
def llm_post_accept (llm_confirm_min_severity : Int)
    (city county state state_code : String) (roads : List String)
    (item : NewsItem) : Bool :=
  decide (llm_confirm_min_severity ≤ newsItemSeverity item)
    && geo_specific_match city county state state_code roads item

/-- Outcome of one pass through `PrepperAlertsRunner._emit_if_needed`. -/
inductive EmitOutcome where
  | skippedDuplicate
  | skippedCooldown
  | dispatched (channels : Bool × Bool)
deriving DecidableEq

/-- The cooldown bucket of a decision: `location:category:priority`. -/
def decisionBucket (d : AlertDecision) : String :=
  d.location_id ++ ":" ++ d.category ++ ":" ++ toString d.priority

/-- The dedupe key of a decision (`external_id` is the alert title). -/
def decisionKey (d : AlertDecision) : AlertKey :=
  { location_id := d.location_id, provider := d.provider
    external_id := d.title, category := d.category }

/-- The payload `_emit_if_needed` dispatches. -/
def decisionPayload (d : AlertDecision) : AlertPayload :=
  { title := d.title
    body := d.body ++ "\nReason: " ++ d.reason
    priority := d.priority
    url := d.url
    location_id := d.location_id }

/-- `PrepperAlertsRunner._emit_if_needed`: skip when the key was already
seen; skip when the bucket is in cooldown (this read may lazily evict an
expired bucket); otherwise dispatch, mark the key seen and start the
bucket cooldown. `dispatchFn` abstracts `AlertDispatcher.dispatch`,
`cooldown_minutes` is `settings.hysteria.cooldown_minutes`. -/
def emit_if_needed (cooldown_minutes : Nat)
    (dispatchFn : AlertPayload → Bool × Bool) (st : StateStore) (now : Nat)
    (d : AlertDecision) : StateStore × EmitOutcome :=
  if st.is_seen (decisionKey d) then (st, .skippedDuplicate)
  else
    let cd := st.in_cooldown (decisionBucket d) now
    if cd.1 then (cd.2, .skippedCooldown)
    else
      let channels := dispatchFn (decisionPayload d)
      let st2 := ((cd.2.mark_seen (decisionKey d) now).start_cooldown
        (decisionBucket d) cooldown_minutes now)
      (st2, .dispatched channels)

/-! ## Helper lemmas -/

theorem lastN_append_lastN {α : Type} (n : Nat) (xs ys : List α) :
    lastN n (lastN n xs ++ ys) = lastN n (xs ++ ys) := by
  simp only [lastN, List.reverse_append, List.reverse_reverse]
  rw [List.take_append_eq_append_take, List.take_append_eq_append_take,
    List.take_take, List.length_reverse]
  rw [Nat.min_eq_left (Nat.sub_le _ _)]

theorem lastN_idem {α : Type} (n : Nat) (xs : List α) :
    lastN n (lastN n xs) = lastN n xs := by
  have h := lastN_append_lastN n xs []
  simpa using h

theorem lastN_nil {α : Type} (n : Nat) : lastN n ([] : List α) = [] := by
  simp [lastN]

theorem length_insertLe (a : Nat) (l : List Nat) :
    (insertLe a l).length = l.length + 1 := by
  induction l with
  | nil => rfl
  | cons b bs ih => by_cases h : a ≤ b <;> simp [insertLe, h, ih]

theorem length_sortList (l : List Nat) : (sortList l).length = l.length := by
  induction l with
  | nil => rfl
  | cons a as ih => simp [sortList, length_insertLe, ih]

theorem lookup_dictInsert_self {β : Type} (m : List (String × β)) (k : String)
    (v : β) : (dictInsert m k v).lookup k = some v := by
  simp [dictInsert, List.lookup]

theorem lookup_dictPop_self {β : Type} (m : List (String × β)) (k : String) :
    (dictPop m k).lookup k = none := by
  induction m with
  | nil => rfl
  | cons p t ih =>
    by_cases h : p.1 = k
    · simpa [dictPop, List.filter_cons, h] using ih
    · have hne : ¬ (k == p.1) = true := by
        simpa [beq_iff_eq] using fun hkp => h hkp.symm
      simpa [dictPop, List.filter_cons, h, List.lookup, hne] using ih

theorem geo_specific_tokens_ne (city county : String) (roads : List String) :
    ∀ t ∈ geo_specific_tokens city county roads, t ≠ "" := by
  intro t ht
  simp only [geo_specific_tokens, List.mem_append, List.mem_filter] at ht
  rcases ht with ⟨_, h⟩ | ⟨_, h⟩ <;> simpa using h

theorem record_news_tripped (e : SignalsEngine) (loc : String) (count dd : Nat) :
    ((e.record_news loc count dd).1.tripped = true)
      ↔ (e.news_min_mentions ≤ count
          ∧ ((e.baselines loc).median = 0
              ∨ (e.baselines loc).median * e.news_spike_factor ≤ (count : ℚ))
          ∧ e.require_domains ≤ dd) := by
  simp only [SignalsEngine.record_news, RollingBaseline.observe, Bool.and_eq_true,
    Bool.or_eq_true, decide_eq_true_eq]
  tauto

theorem record_news_baseline_factor (e : SignalsEngine) (loc : String)
    (count dd : Nat) :
    (e.record_news loc count dd).1.baseline = (e.baselines loc).median
    ∧ (e.record_news loc count dd).1.factor
        = (if (e.baselines loc).median = 0 then (count : ℚ)
           else (count : ℚ) / (e.baselines loc).median) := by
  constructor <;> simp [SignalsEngine.record_news, RollingBaseline.observe]

theorem record_news_confirmations (e : SignalsEngine) (loc : String)
    (count dd : Nat) :
    (e.record_news loc count dd).2.confirmations
      = (if (e.record_news loc count dd).1.tripped
         then Function.update e.confirmations loc (insert "news" (e.confirmations loc))
         else e.confirmations) := by
  simp only [SignalsEngine.record_news, RollingBaseline.observe]
  split <;> rfl

/-- Evolution of a rolling baseline under a call sequence: starting from a
window-capped sample list `s`, the samples after processing `vs` are the
last `window` positive values of `s ++ vs`, and the value returned by the
`k`-th call is the median of the last `window` positive values seen before
that call. -/
theorem observe_all_invariant (w : Nat) (vs : List Nat) :
    ∀ s : List Nat, lastN w s = s →
      ((observe_all ⟨w, s⟩ vs).2.samples
          = lastN w (s ++ vs.filter (fun v => decide (0 < v))))
      ∧ ∀ k, k < vs.length →
          (observe_all ⟨w, s⟩ vs).1.getD k 0
            = RollingBaseline.median
                ⟨w, lastN w (s ++ ((vs.take k).filter (fun v => decide (0 < v))))⟩ := by
  induction vs with
  | nil =>
    intro s hs
    refine ⟨by simpa [observe_all] using hs.symm, ?_⟩
    intro k hk
    exact absurd hk (by simp)
  | cons v vs ih =>
    intro s hs
    by_cases hv : 0 < v
    · have hs1 : lastN w (lastN w (s ++ [v])) = lastN w (s ++ [v]) := lastN_idem w _
      have ihs := ih (lastN w (s ++ [v])) hs1
      constructor
      · have h2 := ihs.1
        rw [lastN_append_lastN] at h2
        simpa [observe_all, RollingBaseline.observe, hv, List.filter_cons,
          List.append_assoc] using h2
      · intro k hk
        match k with
        | 0 =>
          simp [observe_all, RollingBaseline.observe, hv, hs]
        | Nat.succ k =>
          have hk2 : k < vs.length := by simpa using hk
          have h3 := ihs.2 k hk2
          rw [lastN_append_lastN] at h3
          simpa [observe_all, RollingBaseline.observe, hv, List.filter_cons,
            List.append_assoc] using h3
    · have ihs := ih s hs
      constructor
      · simpa [observe_all, RollingBaseline.observe, hv, List.filter_cons] using ihs.1
      · intro k hk
        match k with
        | 0 =>
          simp [observe_all, RollingBaseline.observe, hv, hs]
        | Nat.succ k =>
          have hk2 : k < vs.length := by simpa using hk
          have h3 := ihs.2 k hk2
          simpa [observe_all, RollingBaseline.observe, hv, List.filter_cons] using h3

/-! ## Claim theorems -/

/-- C2: every `observe` call returns the median of the samples held before
the new value is incorporated, and appends the new value only when it is
strictly positive (so zero-count calls never enter the window but still
return the baseline from existing samples); over a call sequence from a
fresh baseline, the `k`-th call returns the median of the most recent
(up to `window`) positive prior values; the median of an empty sample set
is 0 and the median of an even-sized sample set is the mean of the two
middle values of the sorted samples. -/
theorem rollingBaseline_observe_spec (b : RollingBaseline) (value w k : Nat)
    (vs l : List Nat) :
    ((b.observe value).1 = b.median
      ∧ (b.observe value).2.samples
          = (if 0 < value then lastN b.window (b.samples ++ [value]) else b.samples))
    ∧ (k < vs.length →
        (observe_all ⟨w, []⟩ vs).1.getD k 0
          = RollingBaseline.median
              ⟨w, lastN w ((vs.take k).filter (fun v => decide (0 < v)))⟩)
    ∧ RollingBaseline.median ⟨w, []⟩ = 0
    ∧ (l ≠ [] → l.length % 2 = 1 →
        RollingBaseline.median ⟨w, l⟩ = ((sortList l).getD (l.length / 2) 0 : ℚ))
    ∧ (l ≠ [] → l.length % 2 = 0 →
        RollingBaseline.median ⟨w, l⟩
          = (((sortList l).getD (l.length / 2 - 1) 0
              + (sortList l).getD (l.length / 2) 0 : Nat) : ℚ) / 2) := by
  refine ⟨⟨rfl, ?_⟩, ?_, ?_, ?_, ?_⟩
  · by_cases hv : 0 < value <;> simp [RollingBaseline.observe, hv]
  · intro hk
    have h := (observe_all_invariant w vs [] (lastN_nil w)).2 k hk
    simpa using h
  · simp [RollingBaseline.median]
  · intro hne hodd
    simp [RollingBaseline.median, hne, length_sortList, hodd]
  · intro hne heven
    have hodd : ¬ l.length % 2 = 1 := by omega
    simp [RollingBaseline.median, hne, length_sortList, hodd]

theorem rollingBaseline_observe_spec_witness :
    (1 < ([4, 10] : List Nat).length
      ∧ (observe_all ⟨12, []⟩ [4, 10]).1.getD 1 0
          = RollingBaseline.median
              ⟨12, lastN 12 ((([4, 10] : List Nat).take 1).filter (fun v => decide (0 < v)))⟩)
    ∧ (([3, 10] : List Nat) ≠ [] ∧ ([3, 10] : List Nat).length % 2 = 0
      ∧ RollingBaseline.median ⟨12, [3, 10]⟩
          = (((sortList [3, 10]).getD 0 0 + (sortList [3, 10]).getD 1 0 : Nat) : ℚ) / 2) := by
  refine ⟨⟨by decide, ?_⟩, by decide, by decide, ?_⟩
  · exact (rollingBaseline_observe_spec ⟨12, []⟩ 0 12 1 [4, 10] [3, 10]).2.1 (by decide)
  · have h := (rollingBaseline_observe_spec ⟨12, []⟩ 0 12 1 [4, 10] [3, 10]).2.2.2.2
      (by decide) (by decide)
    simpa using h

/-- C1: `record_news` trips exactly when the count meets the
minimum-mentions floor, the pre-observation baseline median is zero or the
count meets `baseline * news_spike_factor`, and the distinct-domain count
meets the domain floor; the reported baseline is the median computed
before this observation; the factor is the raw count when that baseline is
zero and `count / baseline` otherwise; and `"news"` is added to the
corroboration set of the location exactly when the result tripped. -/
theorem signalsEngine_record_news_spec (e : SignalsEngine) (loc : String)
    (count dd : Nat) :
    ((e.record_news loc count dd).1.tripped = true
      ↔ (e.news_min_mentions ≤ count
          ∧ ((e.baselines loc).median = 0
              ∨ (e.baselines loc).median * e.news_spike_factor ≤ (count : ℚ))
          ∧ e.require_domains ≤ dd))
    ∧ (e.record_news loc count dd).1.baseline = (e.baselines loc).median
    ∧ (e.record_news loc count dd).1.factor
        = (if (e.baselines loc).median = 0 then (count : ℚ)
           else (count : ℚ) / (e.baselines loc).median)
    ∧ ((e.record_news loc count dd).1.tripped = true →
        (e.record_news loc count dd).2.confirmations loc
          = insert "news" (e.confirmations loc))
    ∧ ((e.record_news loc count dd).1.tripped = false →
        (e.record_news loc count dd).2.confirmations = e.confirmations) := by
  refine ⟨record_news_tripped e loc count dd,
    (record_news_baseline_factor e loc count dd).1,
    (record_news_baseline_factor e loc count dd).2, ?_, ?_⟩
  · intro h
    rw [record_news_confirmations, h]
    simp
  · intro h
    rw [record_news_confirmations, h]
    simp

theorem signalsEngine_record_news_spec_witness :
    ((SignalsEngine.init 3 2 2 2).record_news "home" 3 2).1.tripped = true
    ∧ ((SignalsEngine.init 3 2 2 2).record_news "home" 3 2).2.confirmations "home"
        = insert "news" ((SignalsEngine.init 3 2 2 2).confirmations "home") := by
  have ht : ((SignalsEngine.init 3 2 2 2).record_news "home" 3 2).1.tripped = true := by
    norm_num [SignalsEngine.record_news, SignalsEngine.init, RollingBaseline.observe,
      RollingBaseline.median, RollingBaseline.init]
  exact ⟨ht,
    (signalsEngine_record_news_spec (SignalsEngine.init 3 2 2 2) "home" 3 2).2.2.2.1 ht⟩

/-- C6: the surge trip condition is monotonic in the count — against the
same engine state (hence the same baseline) and the same distinct-domain
count, if a smaller count trips then any larger count also trips. -/
theorem record_news_monotone_in_count (e : SignalsEngine) (loc : String)
    (c1 c2 d : Nat) (hc : c1 < c2)
    (h1 : (e.record_news loc c1 d).1.tripped = true) :
    (e.record_news loc c2 d).1.tripped = true := by
  rw [record_news_tripped] at h1 ⊢
  obtain ⟨ha, hb, hd⟩ := h1
  refine ⟨ha.trans (Nat.le_of_lt hc), ?_, hd⟩
  rcases hb with hb | hb
  · exact Or.inl hb
  · exact Or.inr (hb.trans (by exact_mod_cast Nat.le_of_lt hc))

theorem record_news_monotone_in_count_witness :
    (6 < 10
      ∧ ((((SignalsEngine.init 3 2 2 2).record_news "home" 3 2).2).record_news
          "home" 6 2).1.tripped = true)
    ∧ ((((SignalsEngine.init 3 2 2 2).record_news "home" 3 2).2).record_news
        "home" 10 2).1.tripped = true := by
  have h1 : ((((SignalsEngine.init 3 2 2 2).record_news "home" 3 2).2).record_news
      "home" 6 2).1.tripped = true := by
    norm_num [SignalsEngine.record_news, SignalsEngine.init, RollingBaseline.init,
      RollingBaseline.observe, RollingBaseline.median, sortList, insertLe, lastN]
  exact ⟨⟨by decide, h1⟩, record_news_monotone_in_count _ "home" 6 10 2 (by decide) h1⟩

/-- C4: `hysteria_active` is true exactly when the per-location corroboration
set has reached the `hysteria_sources` threshold; `record_confirmation`
adds the source name to that set; after `reset_run_state` the per-location
corroboration set is empty, so `hysteria_active` is false everywhere
whenever the threshold is at least 1. -/
theorem signalsEngine_hysteria_spec (e : SignalsEngine) (loc src l2 : String) :
    (e.hysteria_active loc = true ↔ e.hysteria_sources ≤ (e.confirmations loc).card)
    ∧ ((e.record_confirmation loc src).confirmations loc
        = insert src (e.confirmations loc))
    ∧ (e.reset_run_state.confirmations l2 = ∅)
    ∧ (1 ≤ e.hysteria_sources → e.reset_run_state.hysteria_active l2 = false) := by
  refine ⟨by simp [SignalsEngine.hysteria_active],
    by simp [SignalsEngine.record_confirmation], rfl, ?_⟩
  intro h
  simp only [SignalsEngine.hysteria_active, SignalsEngine.reset_run_state,
    Finset.card_empty, decide_eq_false_iff_not]
  omega

theorem signalsEngine_hysteria_spec_witness :
    1 ≤ (SignalsEngine.init 3 2 2 2).hysteria_sources
    ∧ (SignalsEngine.init 3 2 2 2).reset_run_state.hysteria_active "home" = false :=
  ⟨by decide,
   (signalsEngine_hysteria_spec (SignalsEngine.init 3 2 2 2) "home" "gdelt" "home").2.2.2
     (by decide)⟩

/-- C5: immediately after `start_cooldown bucket minutes` with positive
minutes, `in_cooldown bucket` is true; whenever the current time is at or
past the stored expiry of a bucket, `in_cooldown` returns false and evicts the
bucket from the cooldown map (so it is absent from subsequently serialized
state); `in_cooldown` of an absent bucket is false and leaves the store
unchanged. -/
theorem stateStore_cooldown_spec (st : StateStore) (bucket : String)
    (minutes now e : Nat) :
    (0 < minutes →
      ((st.start_cooldown bucket minutes now).in_cooldown bucket now).1 = true)
    ∧ (st.cooldowns.lookup bucket = some e → e ≤ now →
        (st.in_cooldown bucket now).1 = false
        ∧ (st.in_cooldown bucket now).2.cooldowns.lookup bucket = none)
    ∧ (st.cooldowns.lookup bucket = none → st.in_cooldown bucket now = (false, st)) := by
  refine ⟨?_, ?_, ?_⟩
  · intro hm
    have hne : ¬ (now + 60 * minutes ≤ now) := by omega
    simp [StateStore.start_cooldown, StateStore.in_cooldown,
      lookup_dictInsert_self, hne]
  · intro hl he
    simp [StateStore.in_cooldown, hl, he, lookup_dictPop_self]
  · intro hl
    simp [StateStore.in_cooldown, hl]

theorem stateStore_cooldown_spec_witness :
    (0 < 1
      ∧ (((⟨[], [], []⟩ : StateStore).start_cooldown "home:nws:1" 1 0).in_cooldown
          "home:nws:1" 0).1 = true)
    ∧ ((⟨[], [("home:nws:1", 5)], []⟩ : StateStore).cooldowns.lookup "home:nws:1"
          = some 5
      ∧ (5 : Nat) ≤ 7
      ∧ ((⟨[], [("home:nws:1", 5)], []⟩ : StateStore).in_cooldown "home:nws:1" 7).1 = false
      ∧ ((⟨[], [("home:nws:1", 5)], []⟩ : StateStore).in_cooldown
          "home:nws:1" 7).2.cooldowns.lookup "home:nws:1" = none) := by
  refine ⟨⟨by decide, ?_⟩, by decide, by decide, ?_, ?_⟩
  · exact (stateStore_cooldown_spec ⟨[], [], []⟩ "home:nws:1" 1 0 0).1 (by decide)
  · exact ((stateStore_cooldown_spec ⟨[], [("home:nws:1", 5)], []⟩ "home:nws:1" 1 7 5).2.1
      (by decide) (by decide)).1
  · exact ((stateStore_cooldown_spec ⟨[], [("home:nws:1", 5)], []⟩ "home:nws:1" 1 7 5).2.1
      (by decide) (by decide)).2

/-- C10: `AlertKey.composite` is not injective — two distinct keys with a
`/` inside a field share a composite string, and once one is marked seen
the other is reported as seen, so two different alert identities are
deduplicated as the same alert event. -/
theorem alertKey_composite_not_injective :
    ∃ k1 k2 : AlertKey, k1 ≠ k2 ∧ k1.composite = k2.composite
      ∧ ∀ (st : StateStore) (now : Nat), (st.mark_seen k1 now).is_seen k2 = true := by
  refine ⟨⟨"a/b", "c", "x", "nws"⟩, ⟨"a", "b/c", "x", "nws"⟩, by decide, by decide, ?_⟩
  intro st now
  have hc : (AlertKey.mk "a" "b/c" "x" "nws").composite
      = (AlertKey.mk "a/b" "c" "x" "nws").composite := by decide
  simp [StateStore.is_seen, StateStore.mark_seen, hc, lookup_dictInsert_self]

theorem in_cooldown_snd_seen (st : StateStore) (bucket : String) (now : Nat) :
    (st.in_cooldown bucket now).2.seen = st.seen := by
  unfold StateStore.in_cooldown
  cases h : st.cooldowns.lookup bucket
  · rfl
  · simp only [h]
    split <;> rfl

theorem emit_unseen_uncooled (m : Nat) (f : AlertPayload → Bool × Bool)
    (st : StateStore) (now : Nat) (d : AlertDecision)
    (h1 : st.is_seen (decisionKey d) = false)
    (h2 : (st.in_cooldown (decisionBucket d) now).1 = false) :
    emit_if_needed m f st now d
      = (((st.in_cooldown (decisionBucket d) now).2.mark_seen (decisionKey d)
            now).start_cooldown (decisionBucket d) m now,
         .dispatched (f (decisionPayload d))) := by
  simp only [emit_if_needed]
  simp [h1, h2]

/-- C3: with the key of the decision unseen and its bucket not in cooldown, the
emit gate dispatches exactly once, marks the key seen, and starts the
bucket cooldown; a subsequent attempt for the same key (at any later
time) is suppressed as a skipped duplicate — not a failure — leaves the
store unchanged, and performs no second dispatch. -/
theorem emit_if_needed_idempotent (m : Nat) (f : AlertPayload → Bool × Bool)
    (st : StateStore) (now now2 : Nat) (d d2 : AlertDecision)
    (hk : decisionKey d2 = decisionKey d)
    (h1 : st.is_seen (decisionKey d) = false)
    (h2 : (st.in_cooldown (decisionBucket d) now).1 = false) :
    (emit_if_needed m f st now d).2 = .dispatched (f (decisionPayload d))
    ∧ (emit_if_needed m f st now d).1.is_seen (decisionKey d) = true
    ∧ (emit_if_needed m f st now d).1.cooldowns.lookup (decisionBucket d)
        = some (now + 60 * m)
    ∧ emit_if_needed m f (emit_if_needed m f st now d).1 now2 d2
        = ((emit_if_needed m f st now d).1, .skippedDuplicate) := by
  rw [emit_unseen_uncooled m f st now d h1 h2]
  have hseen : (((st.in_cooldown (decisionBucket d) now).2.mark_seen (decisionKey d)
      now).start_cooldown (decisionBucket d) m now).is_seen (decisionKey d) = true := by
    simp [StateStore.start_cooldown, StateStore.mark_seen, StateStore.is_seen,
      lookup_dictInsert_self]
  refine ⟨rfl, hseen, ?_, ?_⟩
  · simp [StateStore.start_cooldown, StateStore.mark_seen, lookup_dictInsert_self]
  · have hseen2 : (((st.in_cooldown (decisionBucket d) now).2.mark_seen (decisionKey d)
        now).start_cooldown (decisionBucket d) m now).is_seen (decisionKey d2) = true := by
      rw [hk]; exact hseen
    generalize hX : ((st.in_cooldown (decisionBucket d) now).2.mark_seen (decisionKey d)
        now).start_cooldown (decisionBucket d) m now = X at hseen2 ⊢
    simp only [emit_if_needed]
    simp [hseen2]

theorem emit_if_needed_idempotent_witness :
    ((⟨[], [], []⟩ : StateStore).is_seen
        (decisionKey ⟨"nws", "home", "[HOME] Tornado Warning", "b", 2, none, "nws", "severity=Severe"⟩) = false
    ∧ ((⟨[], [], []⟩ : StateStore).in_cooldown
        (decisionBucket ⟨"nws", "home", "[HOME] Tornado Warning", "b", 2, none, "nws", "severity=Severe"⟩) 0).1 = false)
    ∧ (emit_if_needed 1 (fun _ => (true, false)) ⟨[], [], []⟩ 0
        ⟨"nws", "home", "[HOME] Tornado Warning", "b", 2, none, "nws", "severity=Severe"⟩).2
      = EmitOutcome.dispatched (true, false)
    ∧ emit_if_needed 1 (fun _ => (true, false))
        (emit_if_needed 1 (fun _ => (true, false)) ⟨[], [], []⟩ 0
          ⟨"nws", "home", "[HOME] Tornado Warning", "b", 2, none, "nws", "severity=Severe"⟩).1 9
        ⟨"nws", "home", "[HOME] Tornado Warning", "b", 2, none, "nws", "severity=Severe"⟩
      = ((emit_if_needed 1 (fun _ => (true, false)) ⟨[], [], []⟩ 0
          ⟨"nws", "home", "[HOME] Tornado Warning", "b", 2, none, "nws", "severity=Severe"⟩).1,
        EmitOutcome.skippedDuplicate) := by
  have h := emit_if_needed_idempotent 1 (fun _ => (true, false)) ⟨[], [], []⟩ 0 9
    ⟨"nws", "home", "[HOME] Tornado Warning", "b", 2, none, "nws", "severity=Severe"⟩
    ⟨"nws", "home", "[HOME] Tornado Warning", "b", 2, none, "nws", "severity=Severe"⟩
    rfl (by decide) (by decide)
  exact ⟨⟨by decide, by decide⟩, h.1, h.2.2.2⟩

/-- C7: an official-alert item yields a decision only if its normalized,
lowercased area/headline text is all whitespace (globally applicable) or
contains a non-empty token drawn from the location label, the location id,
or a derived geographic term; and a "watch"-class or Minor/Moderate-severity
item, or an item whose (title-cased) severity is outside the configured
emergency-severity set, yields no decision unless hysteria is active. -/
theorem decision_from_nws_gating (na : String → String) (label idv : String)
    (geo_terms severe_thresholds : List String) (item : NwsItem) (hyst : Bool)
    (d : AlertDecision) :
    (decision_from_nws na label idv geo_terms severe_thresholds item hyst = some d →
      (pyStrip (nws_search_text na item) = ""
        ∨ ∃ tok ∈ nws_tokens na label idv geo_terms,
            tok ≠ "" ∧ strContains (nws_search_text na item) tok = true))
    ∧ ((strContains (pyLower (pyOr (orEmpty item.event) "NWS Alert")) "watch" = true
          ∨ pyLower (titleStr (orEmpty item.severity)) = "minor"
          ∨ pyLower (titleStr (orEmpty item.severity)) = "moderate") →
        hyst = false →
        decision_from_nws na label idv geo_terms severe_thresholds item hyst = none)
    ∧ (severe_thresholds.contains (titleStr (orEmpty item.severity)) = false →
        hyst = false →
        decision_from_nws na label idv geo_terms severe_thresholds item hyst = none) := by
  refine ⟨?_, ?_, ?_⟩
  · intro h
    cases himp : nws_impacts_location na label idv geo_terms item with
    | false => simp [decision_from_nws, himp] at h
    | true =>
      simp only [nws_impacts_location] at himp
      by_cases hstrip : pyStrip (nws_search_text na item) = ""
      · exact Or.inl hstrip
      · right
        rw [if_neg hstrip, List.any_eq_true] at himp
        obtain ⟨tok, htok, hp⟩ := himp
        rw [Bool.and_eq_true] at hp
        exact ⟨tok, htok, by simpa using hp.1, hp.2⟩
  · intro hw hh
    subst hh
    cases himp : nws_impacts_location na label idv geo_terms item with
    | false => simp [decision_from_nws, himp]
    | true => rcases hw with h | h | h <;> simp [decision_from_nws, himp, h]
  · intro hc hh
    subst hh
    cases himp : nws_impacts_location na label idv geo_terms item with
    | false => simp [decision_from_nws, himp]
    | true =>
      have hc2 : titleStr (orEmpty item.severity) ∉ severe_thresholds := by
        simpa using hc
      simp [decision_from_nws, himp, hc, hc2]

theorem decision_from_nws_gating_witness :
    (decision_from_nws id "Austin, TX" "home" ["austin"] ["Severe", "Extreme"] { area_desc := some "austin area", severity := some "severe", event := some "Tornado Warning" } false
      = some { provider := "nws", location_id := "home", title := "[HOME] Tornado Warning", body := "", priority := 2, url := none, category := "nws", reason := "severity=Severe" }
    ∧ (pyStrip (nws_search_text id { area_desc := some "austin area", severity := some "severe", event := some "Tornado Warning" }) = ""
        ∨ ∃ tok ∈ nws_tokens id "Austin, TX" "home" ["austin"],
            tok ≠ ""
            ∧ strContains (nws_search_text id { area_desc := some "austin area", severity := some "severe", event := some "Tornado Warning" }) tok = true))
    ∧ (strContains (pyLower (pyOr (orEmpty (some "Tornado Watch")) "NWS Alert")) "watch" = true
      ∧ decision_from_nws id "Austin, TX" "home" ["austin"] ["Severe", "Extreme"] { area_desc := some "austin area", severity := some "severe", event := some "Tornado Watch" } false = none) := by
  constructor
  · refine ⟨by decide, ?_⟩
    exact (decision_from_nws_gating id "Austin, TX" "home" ["austin"] ["Severe", "Extreme"] { area_desc := some "austin area", severity := some "severe", event := some "Tornado Warning" } false { provider := "nws", location_id := "home", title := "[HOME] Tornado Warning", body := "", priority := 2, url := none, category := "nws", reason := "severity=Severe" }).1 (by decide)
  · refine ⟨by decide, ?_⟩
    exact (decision_from_nws_gating id "Austin, TX" "home" ["austin"] ["Severe", "Extreme"] { area_desc := some "austin area", severity := some "severe", event := some "Tornado Watch" } false { provider := "nws", location_id := "home", title := "t", body := "", priority := 1, url := none, category := "nws", reason := "" }).2.1 (Or.inl (by decide)) rfl

/-- C9 counterexample: for a location whose keyword metadata defines no
city, county or road token, the LLM post-filter accepts an item whose text
matches merely the state token and contains no city/county/road token —
the claim says such an item is rejected. -/
theorem llm_post_accept_state_only_accepted :
    llm_post_accept 2 "" "" "texas" "tx" [] { title := some "flooding in texas", severity := some 2 } = true
    ∧ geo_specific_tokens "" "" [] = []
    ∧ strContains (news_item_text { title := some "flooding in texas", severity := some 2 }) (pyLower "texas") = true := by
  decide

/-- C9 amended: provided the location defines at least one specific local
token (city, county, or road), a classifier-returned item is accepted by
the post-filter iff it meets the minimum severity and its text contains
one of those specific tokens — in particular an item whose text matches
merely a state-level token and no city/county/road token is rejected.
(When the location has no specific tokens the check passes fail-open.) -/
theorem llm_post_accept_spec (minSev : Int) (city county state state_code : String)
    (roads : List String) (item : NewsItem)
    (h : geo_specific_tokens city county roads ≠ []) :
    llm_post_accept minSev city county state state_code roads item = true
      ↔ (minSev ≤ newsItemSeverity item
          ∧ ∃ tok ∈ geo_specific_tokens city county roads,
              strContains (news_item_text item) tok = true) := by
  have hne := geo_specific_tokens_ne city county roads
  constructor
  · intro hacc
    simp only [llm_post_accept, Bool.and_eq_true, decide_eq_true_eq] at hacc
    refine ⟨hacc.1, ?_⟩
    have hg := hacc.2
    simp only [geo_specific_match, if_neg h] at hg
    by_cases hany : (geo_specific_tokens city county roads).any
        (fun tok => tok != "" && strContains (news_item_text item) tok) = true
    · obtain ⟨tok, htok, hp⟩ := List.any_eq_true.mp hany
      rw [Bool.and_eq_true] at hp
      exact ⟨tok, htok, hp.2⟩
    · have hany2 : (geo_specific_tokens city county roads).any
          (fun tok => tok != "" && strContains (news_item_text item) tok) = false := by
        simpa using hany
      simp [hany2] at hg
  · rintro ⟨hsev, tok, htok, hcont⟩
    have htokne : (tok != "") = true := by
      simpa using hne tok htok
    have hany : (geo_specific_tokens city county roads).any
        (fun t => t != "" && strContains (news_item_text item) t) = true :=
      List.any_eq_true.mpr ⟨tok, htok, by simp [htokne, hcont]⟩
    simp [llm_post_accept, geo_specific_match, h, hany, hsev]

theorem llm_post_accept_spec_witness :
    geo_specific_tokens "Springfield" "" [] ≠ []
    ∧ llm_post_accept 2 "Springfield" "" "Illinois" "IL" [] { title := some "fire near springfield", severity := some 3 } = true := by
  refine ⟨by decide, ?_⟩
  exact (llm_post_accept_spec 2 "Springfield" "" "Illinois" "IL" [] { title := some "fire near springfield", severity := some 3 } (by decide)).mpr ⟨by decide, "springfield", by decide, by decide⟩

/-- C8 counterexample: with valid email credentials and a live (non-dry)
run, an SMTP failure inside the email send escapes `dispatch` as a raised
exception instead of being surfaced as a false delivery flag — the claim
says a failed email send is never raised out of dispatch. -/
theorem dispatch_email_exception_escapes :
    AlertDispatcher.dispatch { use_email := true, use_pushover := true, emergency_retry := 60, emergency_expire := 3600, dry_run := false, pushover_user := none, pushover_token := none, gmail_user := some "user", gmail_app_password := some "pw", alert_email_to := some "dest" } { title := "t", body := "b", priority := 1, url := none, location_id := "home" } (PushNet.status true) SmtpNet.smtpError = Except.error "smtp failure" := rfl

/-- C8 amended: `dispatch` attempts Pushover first and email second and
returns the per-channel delivery map; when neither attempt raises, each
flag is the send result of its own channel, so a failure signalled by a
send returning false (missing credentials, or a Pushover HTTP error
response) is surfaced as a false flag and does not prevent or distort the
attempt of the other channel. However an exception inside a send propagates out of
`dispatch`: an uncaught Pushover transport exception prevents the email
attempt, and an SMTP exception from the email send escapes after the
Pushover attempt has completed. -/
theorem dispatch_per_channel_spec (env : DispatcherEnv) (payload : AlertPayload)
    (pnet : PushNet) (enet : SmtpNet) (p m : Bool) (err : String) :
    (pushover_step env payload pnet = .ok p →
      email_step env payload enet = .ok m →
      AlertDispatcher.dispatch env payload pnet enet = .ok (p, m))
    ∧ (pushover_step env payload pnet = .error err →
        AlertDispatcher.dispatch env payload pnet enet = .error err)
    ∧ (pushover_step env payload pnet = .ok p →
        email_step env payload enet = .error err →
        AlertDispatcher.dispatch env payload pnet enet = .error err) := by
  refine ⟨?_, ?_, ?_⟩
  · intro hp he
    simp [AlertDispatcher.dispatch, hp, he]
  · intro hp
    simp [AlertDispatcher.dispatch, hp]
  · intro hp he
    simp [AlertDispatcher.dispatch, hp, he]

theorem dispatch_per_channel_spec_witness :
    (pushover_step { use_email := true, use_pushover := true, emergency_retry := 60, emergency_expire := 3600, dry_run := false, pushover_user := none, pushover_token := none, gmail_user := none, gmail_app_password := none, alert_email_to := none } { title := "t", body := "b", priority := 1, url := none, location_id := "home" } (PushNet.status true) = Except.ok false
    ∧ email_step { use_email := true, use_pushover := true, emergency_retry := 60, emergency_expire := 3600, dry_run := false, pushover_user := none, pushover_token := none, gmail_user := none, gmail_app_password := none, alert_email_to := none } { title := "t", body := "b", priority := 1, url := none, location_id := "home" } SmtpNet.ok = Except.ok false)
    ∧ AlertDispatcher.dispatch { use_email := true, use_pushover := true, emergency_retry := 60, emergency_expire := 3600, dry_run := false, pushover_user := none, pushover_token := none, gmail_user := none, gmail_app_password := none, alert_email_to := none } { title := "t", body := "b", priority := 1, url := none, location_id := "home" } (PushNet.status true) SmtpNet.ok = Except.ok (false, false) := by
  refine ⟨⟨rfl, rfl⟩, ?_⟩
  exact (dispatch_per_channel_spec { use_email := true, use_pushover := true, emergency_retry := 60, emergency_expire := 3600, dry_run := false, pushover_user := none, pushover_token := none, gmail_user := none, gmail_app_password := none, alert_email_to := none } { title := "t", body := "b", priority := 1, url := none, location_id := "home" } (PushNet.status true) SmtpNet.ok false false "x").1 rfl rfl
